import Mathlib

/-!
Shallow embedding of the scroll-focus-filter camera engine from
`rust-obs-plugins` (`plugins/scroll-focus-filter/src/lib.rs` and
`src/source/properties.rs`).  Machine floats (`f32`/`f64`) are modelled
by exact rationals; `u32` screen configuration values are modelled by
rationals obtained through an explicit two-complement style wrap of the
stored `i32` settings value.
-/

namespace ScrollFocus

/-- A focused-window geometry event, as produced by the window watcher
(`WindowSnapshot` in the source): top-left corner and size in pixels. -/
structure WindowSnapshot where
  x : ℚ
  y : ℚ
  width : ℚ
  height : ℚ
deriving DecidableEq

/-- The camera-engine portion of the filter `Data` struct: tween endpoints,
interpolated state, zoom limits, animation phase and screen configuration. -/
structure Data where
  current : ℚ × ℚ
  from_pan : ℚ × ℚ
  target : ℚ × ℚ
  animation_time : ℚ
  current_zoom : ℚ
  from_zoom : ℚ
  target_zoom : ℚ
  internal_zoom : ℚ
  progress : ℚ
  screen_width : ℚ
  screen_height : ℚ
  screen_x : ℚ
  screen_y : ℚ
deriving DecidableEq

/-- `fn smooth_step(x: f32) -> f32`: clamp the argument to `[0, 1]` and apply
the cubic ease `t * t * (3 - 2 * t)`. -/
def smooth_step (x : ℚ) : ℚ :=
  let t := min (max (x / 1) 0) 1
  t * t * (3 - 2 * t)

/-- The off-region test from `video_tick`: the snapshot origin lies outside
`[screen_x, screen_x + screen_width] × [screen_y, screen_y + screen_height]`.
Only the top-left corner of the window is tested. -/
def off_region (d : Data) (s : WindowSnapshot) : Bool :=
  decide (s.x > d.screen_width + d.screen_x) || decide (s.x < d.screen_x) ||
    decide (s.y < d.screen_y) || decide (s.y > d.screen_height + d.screen_y)

/-- `window_zoom` from `video_tick`: the larger of the two window/region side
ratios plus a `0.1` margin, floored at `internal_zoom` and capped at `1`. -/
def window_zoom (d : Data) (s : WindowSnapshot) : ℚ :=
  min (max (max (s.width / d.screen_width) (s.height / d.screen_height) + 1 / 10)
        d.internal_zoom) 1

/-- Candidate pan `target_x` from `video_tick`: center the window horizontally
in the crop, then clamp so the crop stays on-screen. -/
def candidate_x (d : Data) (s : WindowSnapshot) : ℚ :=
  let x := (s.x + s.width / 2 - d.screen_x) / d.screen_width
  max (min (x - window_zoom d s / 2) (1 - window_zoom d s)) 0

/-- Candidate pan `target_y` from `video_tick`: center the window vertically
in the crop, then clamp so the crop stays on-screen. -/
def candidate_y (d : Data) (s : WindowSnapshot) : ℚ :=
  let y := (s.y + s.height / 2 - d.screen_y) / d.screen_height
  max (min (y - window_zoom d s / 2) (1 - window_zoom d s)) 0

/-- Committing a new tween target: `progress = 0`, `from_* = current_*`,
`target_zoom = tz`, `target = t` (the common mutation of both branches of the
snapshot handler in `video_tick`). -/
def commit (d : Data) (tz : ℚ) (t : ℚ × ℚ) : Data :=
  { d with progress := 0, from_zoom := d.current_zoom, target_zoom := tz,
           from_pan := d.current, target := t }

/-- Handling of one drained `ServerMessage::Snapshot` inside `video_tick`:
off-region snapshots retarget to the resting state when the guard
`target_zoom ≠ 1 ∧ target.x ≠ 0 ∧ target.y ≠ 0` holds; on-region snapshots
commit the candidate target when any coordinate moved by more than `0.001`. -/
def process_snapshot (d : Data) (s : WindowSnapshot) : Data :=
  if off_region d s = true then
    if d.target_zoom ≠ 1 ∧ d.target.1 ≠ 0 ∧ d.target.2 ≠ 0 then
      commit d 1 (0, 0)
    else d
  else
    if |candidate_y d s - d.target.2| > 1 / 1000 ∨
        |candidate_x d s - d.target.1| > 1 / 1000 ∨
        |window_zoom d s - d.target_zoom| > 1 / 1000 then
      commit d (window_zoom d s) (candidate_x d s, candidate_y d s)
    else d

/-- The animation step at the end of `video_tick`: advance `progress` by
`seconds / animation_time` (saturating at `1`), then linearly interpolate pan
and zoom between the tween endpoints with the eased progress. -/
def video_tick_frame (d : Data) (seconds : ℚ) : Data :=
  let p := min (d.progress + seconds / d.animation_time) 1
  let e := smooth_step p
  { d with progress := p,
           current := (d.from_pan.1 + (d.target.1 - d.from_pan.1) * e,
                       d.from_pan.2 + (d.target.2 - d.from_pan.2) * e),
           current_zoom := d.from_zoom + (d.target_zoom - d.from_zoom) * e }

/-- One full `video_tick` call: drain all queued snapshots in arrival order,
then run the animation step once. -/
def video_tick (d : Data) (msgs : List WindowSnapshot) (seconds : ℚ) : Data :=
  video_tick_frame (msgs.foldl process_snapshot d) seconds

/-- Driving the engine through a sequence of frames, none of which delivers a
snapshot (no intervening retarget). -/
def drive (d : Data) (dts : List ℚ) : Data :=
  dts.foldl (fun a dt => video_tick a [] dt) d

/-- `DEFAULT_ZOOM` from the source. -/
def DEFAULT_ZOOM : ℚ := 1

/-- `DEFAULT_SCREEN_X` from the source. -/
def DEFAULT_SCREEN_X : ℤ := 0

/-- `DEFAULT_SCREEN_Y` from the source. -/
def DEFAULT_SCREEN_Y : ℤ := 0

/-- `DEFAULT_SCREEN_WIDTH` from the source. -/
def DEFAULT_SCREEN_WIDTH : ℤ := 1920

/-- `DEFAULT_SCREEN_HEIGHT` from the source. -/
def DEFAULT_SCREEN_HEIGHT : ℤ := 1080

/-- `DEFAULT_ANIMATION_TIME` from the source. -/
def DEFAULT_ANIMATION_TIME : ℚ := 3 / 10

/-- `PropertyDescriptorSpecializationF64` (`properties.rs`): declared bounds,
step and slider flag of a floating-point property. -/
structure PropertyDescriptorSpecializationF64 where
  min : ℚ
  max : ℚ
  step : ℚ
  slider : Bool
deriving DecidableEq

/-- `PropertyDescriptorSpecializationI32` (`properties.rs`): declared bounds,
step and slider flag of an integer property. -/
structure PropertyDescriptorSpecializationI32 where
  min : ℤ
  max : ℤ
  step : ℤ
  slider : Bool
deriving DecidableEq

/-- The `zoom` property descriptor registered by `create`. -/
def property_zoom : PropertyDescriptorSpecializationF64 :=
  { min := 1, max := 5, step := 1 / 1000, slider := true }

/-- The `screen_x` property descriptor registered by `create`. -/
def property_screen_x : PropertyDescriptorSpecializationI32 :=
  { min := 0, max := 3840 * 3, step := 1, slider := false }

/-- The `screen_y` property descriptor registered by `create`. -/
def property_screen_y : PropertyDescriptorSpecializationI32 :=
  { min := 0, max := 3840 * 3, step := 1, slider := false }

/-- The `screen_width` property descriptor registered by `create`. -/
def property_screen_width : PropertyDescriptorSpecializationI32 :=
  { min := 1, max := 3840 * 3, step := 1, slider := false }

/-- The `screen_height` property descriptor registered by `create`. -/
def property_screen_height : PropertyDescriptorSpecializationI32 :=
  { min := 1, max := 3840 * 3, step := 1, slider := false }

/-- The `animation_time` property descriptor registered by `create`. -/
def property_animation_time : PropertyDescriptorSpecializationF64 :=
  { min := 3 / 10, max := 10, step := 1 / 1000, slider := false }

/-- The relevant slice of the OBS settings store: for each property of the
filter, the optionally stored value (absent when the user never set it). -/
structure SettingsStore where
  zoom : Option ℚ
  screen_x : Option ℤ
  screen_y : Option ℤ
  screen_width : Option ℤ
  screen_height : Option ℤ
  animation_time : Option ℚ
deriving DecidableEq

/-- `PropertyDescriptorSpecializationF64::get_property_value` (`properties.rs`):
install the default, then read the stored value back; the stored value when
present, the default otherwise.  The declared bounds are not consulted. -/
def get_property_value_f64 (stored : Option ℚ) (default : ℚ) : ℚ :=
  stored.getD default

/-- `PropertyDescriptorSpecializationI32::get_property_value` (`properties.rs`):
install the default, then read the stored value back; the stored value when
present, the default otherwise.  The declared bounds are not consulted. -/
def get_property_value_i32 (stored : Option ℤ) (default : ℤ) : ℤ :=
  stored.getD default

/-- Modelled from the spec: read-time defensive clamping of a stored
floating-point value into the declared bounds of its property descriptor
(the behaviour the specification ascribes to configuration reads). -/
def get_property_value_f64_clamped (desc : PropertyDescriptorSpecializationF64)
    (stored : Option ℚ) (default : ℚ) : ℚ :=
  min (max (stored.getD default) desc.min) desc.max

/-- The `i32 → u32` cast performed by `update` on the screen settings. -/
def u32_cast (x : ℤ) : ℤ :=
  x.emod (2 ^ 32)

/-- `ScrollFocusFilter::update`: read every property from the settings store
and store it into the filter state.  Unconditionally sets
`from_zoom = current_zoom` and `internal_zoom = target_zoom = 1 / zoom`;
`progress`, `from_pan`, `target` and `current` are left untouched. -/
def update (d : Data) (st : SettingsStore) : Data :=
  let zoom := get_property_value_f64 st.zoom DEFAULT_ZOOM
  { d with
    from_zoom := d.current_zoom,
    internal_zoom := 1 / zoom,
    target_zoom := 1 / zoom,
    screen_width := (u32_cast (get_property_value_i32 st.screen_width DEFAULT_SCREEN_WIDTH) : ℚ),
    screen_height := (u32_cast (get_property_value_i32 st.screen_height DEFAULT_SCREEN_HEIGHT) : ℚ),
    screen_x := (u32_cast (get_property_value_i32 st.screen_x DEFAULT_SCREEN_X) : ℚ),
    screen_y := (u32_cast (get_property_value_i32 st.screen_y DEFAULT_SCREEN_Y) : ℚ),
    animation_time := get_property_value_f64 st.animation_time DEFAULT_ANIMATION_TIME }

/-- The camera state assembled at the end of `ScrollFocusFilter::create`:
pan triple zeroed, all zoom scalars `1`, `progress = 1`, default screen
rectangle and animation time. -/
def initial_data : Data :=
  { current := (0, 0), from_pan := (0, 0), target := (0, 0),
    animation_time := 3 / 10,
    current_zoom := 1, from_zoom := 1, target_zoom := 1, internal_zoom := 1,
    progress := 1,
    screen_width := 1920, screen_height := 1080, screen_x := 0, screen_y := 0 }

/-- Modelled from the spec: `Server::new` (the watcher connection constructor
in `server.rs`, not among the embedded sources) may fail to establish a
connection to the window-focus source; modelled as a fallible constructor
indexed by whether initialization succeeds. -/
def server_new (init_ok : Bool) : Option Unit :=
  if init_ok then some () else none

/-- Fate of the dedicated watcher thread spawned by `create`. -/
inductive WatcherOutcome where
  /-- `Server::new().unwrap()` failed: the spawned thread unwinds and dies. -/
  | dead_on_init : WatcherOutcome
  /-- The watcher entered its event loop. -/
  | looping : WatcherOutcome
deriving DecidableEq

/-- The spawned thread body in `create`: unwrap the watcher connection; on
failure the spawned thread itself unwinds, on success it loops forever. -/
def watcher_thread (init_ok : Bool) : WatcherOutcome :=
  match server_new init_ok with
  | none => WatcherOutcome.dead_on_init
  | some _ => WatcherOutcome.looping

/-- `ScrollFocusFilter::create`: `none` models a panic on the creating thread
(effect failed to load, or a shader parameter is missing); otherwise the
filter data is constructed and the watcher thread is spawned.  The watcher
unwrap happens on the spawned thread, so its outcome does not influence
whether construction succeeds. -/
def create (effect_ok params_ok init_ok : Bool) : Option (Data × WatcherOutcome) :=
  if effect_ok = true then
    if params_ok = true then some (initial_data, watcher_thread init_ok)
    else none
  else none

/-- State used to exhibit the behaviour of the off-region guard on a target
whose second pan component is zero. -/
def d_guard : Data :=
  { current := (1 / 5, 0), from_pan := (1 / 10, 0), target := (3 / 10, 0),
    animation_time := 3 / 10,
    current_zoom := 3 / 5, from_zoom := 7 / 10, target_zoom := 1 / 2,
    internal_zoom := 1 / 5, progress := 1 / 2,
    screen_width := 1920, screen_height := 1080, screen_x := 0, screen_y := 0 }

/-- Variant of `d_guard` whose target has both pan components nonzero. -/
def d_guard_full : Data :=
  { d_guard with target := (3 / 10, 2 / 5) }

/-- A snapshot whose origin lies right of the configured region. -/
def s_off : WindowSnapshot := { x := 2000, y := 100, width := 50, height := 50 }

/-- Settings store that only sets the zoom slider to `5`. -/
def st_zoom5 : SettingsStore :=
  { zoom := some 5, screen_x := none, screen_y := none, screen_width := none,
    screen_height := none, animation_time := none }

/-- Settings store that only sets the zoom slider to `1`. -/
def st_zoom1 : SettingsStore :=
  { zoom := some 1, screen_x := none, screen_y := none, screen_width := none,
    screen_height := none, animation_time := none }

/-- An on-region snapshot whose committed target pan is `(1/2, 1/2)` under
`internal_zoom = 1/5` and the default screen rectangle. -/
def s_mid : WindowSnapshot := { x := 1056, y := 594, width := 768, height := 432 }

/-- Settings store that only sets the zoom slider, to the out-of-range `7`. -/
def st_zoom7 : SettingsStore :=
  { zoom := some 7, screen_x := none, screen_y := none, screen_width := none,
    screen_height := none, animation_time := none }

/-- The state `update initial_data st_zoom5`. -/
def d6_0 : Data :=
  { current := (0, 0), from_pan := (0, 0), target := (0, 0),
    animation_time := 3 / 10,
    current_zoom := 1, from_zoom := 1, target_zoom := 1 / 5, internal_zoom := 1 / 5,
    progress := 1,
    screen_width := 1920, screen_height := 1080, screen_x := 0, screen_y := 0 }

/-- The state `process_snapshot d6_0 s_mid`. -/
def d6_1 : Data :=
  { current := (0, 0), from_pan := (0, 0), target := (1 / 2, 1 / 2),
    animation_time := 3 / 10,
    current_zoom := 1, from_zoom := 1, target_zoom := 1 / 2, internal_zoom := 1 / 5,
    progress := 0,
    screen_width := 1920, screen_height := 1080, screen_x := 0, screen_y := 0 }

/-- The state `video_tick_frame d6_1 (3/10)`. -/
def d6_2 : Data :=
  { current := (1 / 2, 1 / 2), from_pan := (0, 0), target := (1 / 2, 1 / 2),
    animation_time := 3 / 10,
    current_zoom := 1 / 2, from_zoom := 1, target_zoom := 1 / 2, internal_zoom := 1 / 5,
    progress := 1,
    screen_width := 1920, screen_height := 1080, screen_x := 0, screen_y := 0 }

/-- The state `update d6_2 st_zoom1`. -/
def d6_3 : Data :=
  { current := (1 / 2, 1 / 2), from_pan := (0, 0), target := (1 / 2, 1 / 2),
    animation_time := 3 / 10,
    current_zoom := 1 / 2, from_zoom := 1 / 2, target_zoom := 1, internal_zoom := 1,
    progress := 1,
    screen_width := 1920, screen_height := 1080, screen_x := 0, screen_y := 0 }

/-- The state `video_tick_frame d6_3 (1/10)`. -/
def d6_4 : Data :=
  { current := (1 / 2, 1 / 2), from_pan := (0, 0), target := (1 / 2, 1 / 2),
    animation_time := 3 / 10,
    current_zoom := 1, from_zoom := 1 / 2, target_zoom := 1, internal_zoom := 1,
    progress := 1,
    screen_width := 1920, screen_height := 1080, screen_x := 0, screen_y := 0 }

/-- One pan vector lies inside the screen for one zoom value: both components
within `[0, 1 - zoom]`. -/
def pan_in_bounds (p : ℚ × ℚ) (z : ℚ) : Prop :=
  0 ≤ p.1 ∧ p.1 ≤ 1 - z ∧ 0 ≤ p.2 ∧ p.2 ≤ 1 - z

/-- The tween invariant: all three pan vectors of the camera state frame
inside the screen for their respective zoom values. -/
def tween_invariant (d : Data) : Prop :=
  pan_in_bounds d.from_pan d.from_zoom ∧ pan_in_bounds d.target d.target_zoom ∧
    pan_in_bounds d.current d.current_zoom

instance (p : ℚ × ℚ) (z : ℚ) : Decidable (pan_in_bounds p z) := by
  unfold pan_in_bounds
  infer_instance

instance (d : Data) : Decidable (tween_invariant d) := by
  unfold tween_invariant
  infer_instance

theorem smooth_step_nonneg (x : ℚ) : 0 ≤ smooth_step x := by
  simp only [smooth_step]
  have h0 : 0 ≤ min (max (x / 1) 0) 1 := le_min (le_max_right _ _) zero_le_one
  have h1 : min (max (x / 1) 0) 1 ≤ 1 := min_le_right _ _
  nlinarith

theorem smooth_step_le_one (x : ℚ) : smooth_step x ≤ 1 := by
  simp only [smooth_step]
  have h0 : 0 ≤ min (max (x / 1) 0) 1 := le_min (le_max_right _ _) zero_le_one
  have h1 : min (max (x / 1) 0) 1 ≤ 1 := min_le_right _ _
  nlinarith [mul_nonneg (sq_nonneg (1 - min (max (x / 1) 0) 1))
    (by linarith : (0 : ℚ) ≤ 1 + 2 * min (max (x / 1) 0) 1)]

theorem smooth_step_mono (a b : ℚ) (hab : a ≤ b) :
    smooth_step a ≤ smooth_step b := by
  simp only [smooth_step]
  have hd : a / 1 ≤ b / 1 := by rw [div_one, div_one]; exact hab
  have hm : min (max (a / 1) 0) 1 ≤ min (max (b / 1) 0) 1 :=
    min_le_min (max_le_max hd le_rfl) le_rfl
  have h0a : 0 ≤ min (max (a / 1) 0) 1 := le_min (le_max_right _ _) zero_le_one
  have h1a : min (max (a / 1) 0) 1 ≤ 1 := min_le_right _ _
  have h0b : 0 ≤ min (max (b / 1) 0) 1 := le_min (le_max_right _ _) zero_le_one
  have h1b : min (max (b / 1) 0) 1 ≤ 1 := min_le_right _ _
  nlinarith [mul_nonneg (sub_nonneg.2 hm) (sub_nonneg.2 h1b),
    mul_nonneg (sub_nonneg.2 hm) (sub_nonneg.2 h1a),
    mul_nonneg h0a h0b, sq_nonneg (min (max (b / 1) 0) 1 - min (max (a / 1) 0) 1)]

theorem smooth_step_at_one : smooth_step 1 = 1 := by
  norm_num [smooth_step]

theorem window_zoom_le_one (d : Data) (s : WindowSnapshot) :
    window_zoom d s ≤ 1 :=
  min_le_right _ _

theorem candidate_x_nonneg (d : Data) (s : WindowSnapshot) :
    0 ≤ candidate_x d s := by
  unfold candidate_x
  exact le_max_right _ _

theorem candidate_x_le (d : Data) (s : WindowSnapshot) :
    candidate_x d s ≤ 1 - window_zoom d s := by
  unfold candidate_x
  exact max_le (min_le_right _ _) (by linarith [window_zoom_le_one d s])

theorem candidate_y_nonneg (d : Data) (s : WindowSnapshot) :
    0 ≤ candidate_y d s := by
  unfold candidate_y
  exact le_max_right _ _

theorem candidate_y_le (d : Data) (s : WindowSnapshot) :
    candidate_y d s ≤ 1 - window_zoom d s := by
  unfold candidate_y
  exact max_le (min_le_right _ _) (by linarith [window_zoom_le_one d s])

/-- C5: the easing function `smooth_step` maps every input into `[0, 1]`,
fixes `0` and `1`, and is monotonically non-decreasing. -/
theorem smooth_step_easing_spec (x a b : ℚ) (hab : a ≤ b) :
    (0 ≤ smooth_step x ∧ smooth_step x ≤ 1) ∧ smooth_step 0 = 0 ∧
    smooth_step 1 = 1 ∧ smooth_step a ≤ smooth_step b :=
  ⟨⟨smooth_step_nonneg x, smooth_step_le_one x⟩, by norm_num [smooth_step],
    smooth_step_at_one, smooth_step_mono a b hab⟩

/-- Witness for C5 at concrete inputs. -/
theorem smooth_step_easing_spec_witness :
    (0 ≤ smooth_step (1 / 3) ∧ smooth_step (1 / 3) ≤ 1) ∧ smooth_step 0 = 0 ∧
    smooth_step 1 = 1 ∧ smooth_step (1 / 4) ≤ smooth_step (3 / 4) :=
  smooth_step_easing_spec (1 / 3) (1 / 4) (3 / 4) (by norm_num)

/-- C1: for a snapshot whose origin lies inside the configured region, both
components of the candidate target pan lie in `[0, 1 - window_zoom]`, and the
snapshot handler either keeps the previous target or commits exactly this
candidate. -/
theorem on_region_candidate_pan_in_bounds (d : Data) (s : WindowSnapshot)
    (h : off_region d s = false) :
    (0 ≤ candidate_x d s ∧ candidate_x d s ≤ 1 - window_zoom d s) ∧
    (0 ≤ candidate_y d s ∧ candidate_y d s ≤ 1 - window_zoom d s) ∧
    ((process_snapshot d s).target = d.target ∨
      (process_snapshot d s).target = (candidate_x d s, candidate_y d s)) := by
  refine ⟨⟨candidate_x_nonneg d s, candidate_x_le d s⟩,
      ⟨candidate_y_nonneg d s, candidate_y_le d s⟩, ?_⟩
  unfold process_snapshot
  rw [h]
  simp only [Bool.false_eq_true, if_false]
  split
  · exact Or.inr rfl
  · exact Or.inl rfl

/-- Witness for C1 at a concrete on-region snapshot. -/
theorem on_region_candidate_pan_in_bounds_witness :
    (0 ≤ candidate_x initial_data ⟨100, 100, 50, 50⟩ ∧
      candidate_x initial_data ⟨100, 100, 50, 50⟩ ≤
        1 - window_zoom initial_data ⟨100, 100, 50, 50⟩) ∧
    (0 ≤ candidate_y initial_data ⟨100, 100, 50, 50⟩ ∧
      candidate_y initial_data ⟨100, 100, 50, 50⟩ ≤
        1 - window_zoom initial_data ⟨100, 100, 50, 50⟩) ∧
    ((process_snapshot initial_data ⟨100, 100, 50, 50⟩).target =
        initial_data.target ∨
      (process_snapshot initial_data ⟨100, 100, 50, 50⟩).target =
        (candidate_x initial_data ⟨100, 100, 50, 50⟩,
          candidate_y initial_data ⟨100, 100, 50, 50⟩)) :=
  on_region_candidate_pan_in_bounds initial_data ⟨100, 100, 50, 50⟩
    (by norm_num [off_region, initial_data])

/-- C8: every call of the settings-update operation, whatever changed, sets
`from_zoom` to `current_zoom` and both `internal_zoom` and `target_zoom` to
the reciprocal of the zoom setting. -/
theorem update_always_redirects_zoom (d : Data) (st : SettingsStore) :
    (update d st).from_zoom = d.current_zoom ∧
    (update d st).internal_zoom = 1 / get_property_value_f64 st.zoom DEFAULT_ZOOM ∧
    (update d st).target_zoom = 1 / get_property_value_f64 st.zoom DEFAULT_ZOOM :=
  ⟨rfl, rfl, rfl⟩

theorem off_region_commit (d : Data) (tz : ℚ) (t : ℚ × ℚ) (s : WindowSnapshot) :
    off_region (commit d tz t) s = off_region d s :=
  rfl

theorem window_zoom_commit (d : Data) (tz : ℚ) (t : ℚ × ℚ) (s : WindowSnapshot) :
    window_zoom (commit d tz t) s = window_zoom d s :=
  rfl

theorem candidate_x_commit (d : Data) (tz : ℚ) (t : ℚ × ℚ) (s : WindowSnapshot) :
    candidate_x (commit d tz t) s = candidate_x d s :=
  rfl

theorem candidate_y_commit (d : Data) (tz : ℚ) (t : ℚ × ℚ) (s : WindowSnapshot) :
    candidate_y (commit d tz t) s = candidate_y d s :=
  rfl

theorem commit_target (d : Data) (tz : ℚ) (t : ℚ × ℚ) :
    (commit d tz t).target = t :=
  rfl

theorem commit_target_zoom (d : Data) (tz : ℚ) (t : ℚ × ℚ) :
    (commit d tz t).target_zoom = tz :=
  rfl

/-- Reduction of the snapshot handler for an on-region snapshot. -/
theorem process_snapshot_on_region (d : Data) (s : WindowSnapshot)
    (h : off_region d s = false) :
    process_snapshot d s =
      if |candidate_y d s - d.target.2| > 1 / 1000 ∨
          |candidate_x d s - d.target.1| > 1 / 1000 ∨
          |window_zoom d s - d.target_zoom| > 1 / 1000 then
        commit d (window_zoom d s) (candidate_x d s, candidate_y d s)
      else d := by
  rw [process_snapshot, h, if_neg Bool.false_ne_true]

/-- Reduction of the snapshot handler for an off-region snapshot. -/
theorem process_snapshot_off_region (d : Data) (s : WindowSnapshot)
    (h : off_region d s = true) :
    process_snapshot d s =
      if d.target_zoom ≠ 1 ∧ d.target.1 ≠ 0 ∧ d.target.2 ≠ 0 then
        commit d 1 (0, 0)
      else d := by
  rw [process_snapshot, h, if_pos rfl]

/-- Counterexample to C2: `d_guard` is not targeting the resting state
(`target_zoom = 1/2 ≠ 1` and `target = (3/10, 0) ≠ (0, 0)`) and the snapshot
`s_off` lies off-region, yet the handler leaves the state untouched — in
particular `progress` stays `1/2` — because the code requires BOTH pan
components to be nonzero before retargeting. -/
theorem off_region_retarget_counterexample :
    off_region d_guard s_off = true ∧ d_guard.target_zoom ≠ 1 ∧
    d_guard.target ≠ (0, 0) ∧ process_snapshot d_guard s_off = d_guard ∧
    d_guard.progress ≠ 0 := by
  have hoff : off_region d_guard s_off = true := by
    norm_num [off_region, d_guard, s_off]
  refine ⟨hoff, ?_, ?_, ?_, ?_⟩
  · norm_num [d_guard]
  · norm_num [d_guard, Prod.ext_iff]
  · rw [process_snapshot_off_region d_guard s_off hoff]
    norm_num [d_guard]
  · norm_num [d_guard]

/-- C2 (amended): an off-region snapshot retargets to the resting state —
`target_pan = (0,0)`, `target_zoom = 1`, `from_* = current_*`, `progress = 0`
— exactly when `target_zoom ≠ 1` and BOTH components of `target_pan` are
nonzero; in every other case (including non-resting targets with one zero pan
component) the snapshot leaves the state unchanged. -/
theorem off_region_retarget_guard (d : Data) (s : WindowSnapshot)
    (hoff : off_region d s = true) :
    (d.target_zoom ≠ 1 ∧ d.target.1 ≠ 0 ∧ d.target.2 ≠ 0 →
      process_snapshot d s = commit d 1 (0, 0)) ∧
    (¬(d.target_zoom ≠ 1 ∧ d.target.1 ≠ 0 ∧ d.target.2 ≠ 0) →
      process_snapshot d s = d) := by
  rw [process_snapshot_off_region d s hoff]
  constructor
  · intro hg
    rw [if_pos hg]
  · intro hg
    rw [if_neg hg]

/-- C4: on an on-region snapshot, no new target is committed when all three
coordinates moved by at most `0.001` (the state is untouched), and processing
the same snapshot twice in a row equals processing it once — the second pass
never resets `progress` nor moves the target. -/
theorem hysteresis_spec (d : Data) (s : WindowSnapshot)
    (h : off_region d s = false) :
    ((|candidate_y d s - d.target.2| ≤ 1 / 1000 ∧
      |candidate_x d s - d.target.1| ≤ 1 / 1000 ∧
      |window_zoom d s - d.target_zoom| ≤ 1 / 1000) → process_snapshot d s = d) ∧
    process_snapshot (process_snapshot d s) s = process_snapshot d s := by
  constructor
  · rintro ⟨h1, h2, h3⟩
    rw [process_snapshot_on_region d s h, if_neg]
    push_neg
    exact ⟨h1, h2, h3⟩
  · by_cases hc : |candidate_y d s - d.target.2| > 1 / 1000 ∨
        |candidate_x d s - d.target.1| > 1 / 1000 ∨
        |window_zoom d s - d.target_zoom| > 1 / 1000
    · have e1 : process_snapshot d s =
          commit d (window_zoom d s) (candidate_x d s, candidate_y d s) := by
        rw [process_snapshot_on_region d s h, if_pos hc]
      have hoff2 : off_region
          (commit d (window_zoom d s) (candidate_x d s, candidate_y d s)) s = false := by
        rw [off_region_commit]
        exact h
      rw [e1, process_snapshot_on_region _ s hoff2, if_neg]
      push_neg
      refine ⟨?_, ?_, ?_⟩ <;>
        · simp only [candidate_y_commit, candidate_x_commit, window_zoom_commit,
            commit_target, commit_target_zoom]
          simp only [sub_self, abs_zero]
          norm_num
    · have e1 : process_snapshot d s = d := by
        rw [process_snapshot_on_region d s h, if_neg hc]
      rw [e1]
      exact e1

/-- Witness for C4 at a concrete on-region snapshot. -/
theorem hysteresis_spec_witness :
    ((|candidate_y initial_data ⟨200, 300, 40, 40⟩ - initial_data.target.2| ≤ 1 / 1000 ∧
      |candidate_x initial_data ⟨200, 300, 40, 40⟩ - initial_data.target.1| ≤ 1 / 1000 ∧
      |window_zoom initial_data ⟨200, 300, 40, 40⟩ - initial_data.target_zoom| ≤ 1 / 1000) →
      process_snapshot initial_data ⟨200, 300, 40, 40⟩ = initial_data) ∧
    process_snapshot (process_snapshot initial_data ⟨200, 300, 40, 40⟩) ⟨200, 300, 40, 40⟩ =
      process_snapshot initial_data ⟨200, 300, 40, 40⟩ :=
  hysteresis_spec initial_data ⟨200, 300, 40, 40⟩
    (by norm_num [off_region, initial_data])

theorem tick_progress (d : Data) (dt : ℚ) :
    (video_tick_frame d dt).progress = min (d.progress + dt / d.animation_time) 1 :=
  rfl

theorem tick_animation_time (d : Data) (dt : ℚ) :
    (video_tick_frame d dt).animation_time = d.animation_time :=
  rfl

theorem tick_target (d : Data) (dt : ℚ) :
    (video_tick_frame d dt).target = d.target :=
  rfl

theorem tick_target_zoom (d : Data) (dt : ℚ) :
    (video_tick_frame d dt).target_zoom = d.target_zoom :=
  rfl

theorem tick_from_pan (d : Data) (dt : ℚ) :
    (video_tick_frame d dt).from_pan = d.from_pan :=
  rfl

theorem tick_from_zoom (d : Data) (dt : ℚ) :
    (video_tick_frame d dt).from_zoom = d.from_zoom :=
  rfl

theorem tick_current (d : Data) (dt : ℚ) :
    (video_tick_frame d dt).current =
      (d.from_pan.1 + (d.target.1 - d.from_pan.1) *
          smooth_step ((video_tick_frame d dt).progress),
        d.from_pan.2 + (d.target.2 - d.from_pan.2) *
          smooth_step ((video_tick_frame d dt).progress)) :=
  rfl

theorem tick_current_zoom (d : Data) (dt : ℚ) :
    (video_tick_frame d dt).current_zoom =
      d.from_zoom + (d.target_zoom - d.from_zoom) *
        smooth_step ((video_tick_frame d dt).progress) :=
  rfl

theorem drive_cons (d : Data) (dt : ℚ) (rest : List ℚ) :
    drive d (dt :: rest) = drive (video_tick_frame d dt) rest :=
  rfl

theorem drive_nil (d : Data) : drive d [] = d :=
  rfl

/-- A frame whose saturated progress reached `1` has interpolated all the way
to the tween target, exactly. -/
theorem tick_converged (d : Data) (dt : ℚ)
    (h : (video_tick_frame d dt).progress = 1) :
    (video_tick_frame d dt).current = (video_tick_frame d dt).target ∧
    (video_tick_frame d dt).current_zoom = (video_tick_frame d dt).target_zoom := by
  constructor
  · rw [tick_current, h, smooth_step_at_one, tick_target, Prod.ext_iff]
    refine ⟨?_, ?_⟩ <;> (dsimp only; ring)
  · rw [tick_current_zoom, h, smooth_step_at_one, tick_target_zoom]
    ring

/-- Saturated progress accumulation: once the nonnegative frame times sum past
what is needed to reach `1`, driving the engine leaves `progress` at `1`. -/
theorem drive_progress_reaches_one (dts : List ℚ) : ∀ d : Data,
    (∀ x ∈ dts, 0 ≤ x) → 0 < d.animation_time → 0 ≤ d.progress →
    1 ≤ d.progress + dts.sum / d.animation_time → dts ≠ [] →
    (drive d dts).progress = 1 := by
  induction dts with
  | nil =>
    intro d _ _ _ _ hne
    exact absurd rfl hne
  | cons dt rest ih =>
    intro d hnn hT hp hsum _
    have hdt : 0 ≤ dt := hnn dt (List.mem_cons_self _ _)
    have hdtT : 0 ≤ dt / d.animation_time := div_nonneg hdt hT.le
    by_cases hrest : rest = []
    · subst hrest
      rw [drive_cons, drive_nil, tick_progress]
      have hs : (dt :: ([] : List ℚ)).sum = dt := by simp
      rw [hs] at hsum
      exact min_eq_right hsum
    · rw [drive_cons]
      apply ih (video_tick_frame d dt)
      · intro x hx
        exact hnn x (List.mem_cons_of_mem _ hx)
      · rw [tick_animation_time]
        exact hT
      · rw [tick_progress]
        exact le_min (by linarith) (by norm_num)
      · rw [tick_progress, tick_animation_time]
        have hrs : 0 ≤ rest.sum :=
          List.sum_nonneg (fun x hx => hnn x (List.mem_cons_of_mem _ hx))
        have hrsT : 0 ≤ rest.sum / d.animation_time := div_nonneg hrs hT.le
        have hs : (dt :: rest).sum = dt + rest.sum := by simp
        rw [hs, add_div] at hsum
        rcases min_cases (d.progress + dt / d.animation_time) 1 with ⟨heq, _⟩ | ⟨heq, _⟩
        · rw [heq]
          linarith
        · rw [heq]
          linarith
      · exact hrest

/-- C3: each frame sets `progress = min(1, progress + dt / animation_time)`,
and after any sequence of nonnegative frame times summing to at least
`animation_time` (with no intervening retarget), the interpolated pan and
zoom equal the target pan and zoom exactly. -/
theorem animation_engine_converges (d : Data) (dts : List ℚ) (dt : ℚ)
    (hnn : ∀ x ∈ dts, 0 ≤ x) (hT : 0 < d.animation_time)
    (hp : 0 ≤ d.progress) (hsum : d.animation_time ≤ dts.sum) :
    (video_tick_frame d dt).progress = min (d.progress + dt / d.animation_time) 1 ∧
    (drive d dts).current = (drive d dts).target ∧
    (drive d dts).current_zoom = (drive d dts).target_zoom := by
  refine ⟨tick_progress d dt, ?_⟩
  have hne : dts ≠ [] := by
    rintro rfl
    simp only [List.sum_nil] at hsum
    linarith
  have h1 : 1 ≤ d.progress + dts.sum / d.animation_time := by
    have hq : 1 ≤ dts.sum / d.animation_time := (one_le_div hT).mpr hsum
    linarith
  have hprog : (drive d dts).progress = 1 :=
    drive_progress_reaches_one dts d hnn hT hp h1 hne
  rcases List.eq_nil_or_concat dts with rfl | ⟨init, last, rfl⟩
  · exact absurd rfl hne
  · have hsplit : drive d (init.concat last) = video_tick_frame (drive d init) last := by
      unfold drive
      rw [List.concat_eq_append, List.foldl_append]
      rfl
    rw [hsplit] at hprog ⊢
    exact tick_converged _ _ hprog

/-- Witness for C3: one frame of `0.3` seconds converges the initial tween. -/
theorem animation_engine_converges_witness :
    (video_tick_frame initial_data (1 / 10)).progress =
      min (initial_data.progress + (1 / 10) / initial_data.animation_time) 1 ∧
    (drive initial_data [3 / 10]).current = (drive initial_data [3 / 10]).target ∧
    (drive initial_data [3 / 10]).current_zoom =
      (drive initial_data [3 / 10]).target_zoom :=
  animation_engine_converges initial_data [3 / 10] (1 / 10)
    (by
      intro x hx
      rw [List.mem_singleton] at hx
      rw [hx]
      norm_num)
    (by norm_num [initial_data]) (by norm_num [initial_data])
    (by norm_num [initial_data])

/-- Witness for C2 (amended) at a concrete off-region snapshot and a state
with both target pan components nonzero. -/
theorem off_region_retarget_guard_witness :
    (d_guard_full.target_zoom ≠ 1 ∧ d_guard_full.target.1 ≠ 0 ∧
        d_guard_full.target.2 ≠ 0 →
      process_snapshot d_guard_full s_off = commit d_guard_full 1 (0, 0)) ∧
    (¬(d_guard_full.target_zoom ≠ 1 ∧ d_guard_full.target.1 ≠ 0 ∧
        d_guard_full.target.2 ≠ 0) →
      process_snapshot d_guard_full s_off = d_guard_full) :=
  off_region_retarget_guard d_guard_full s_off
    (by norm_num [off_region, d_guard_full, d_guard, s_off])

/-- Committing a target whose pan lies within bounds for its zoom preserves
the tween invariant. -/
theorem commit_invariant (d : Data) (tz : ℚ) (t : ℚ × ℚ)
    (h : tween_invariant d) (ht : pan_in_bounds t tz) :
    tween_invariant (commit d tz t) := by
  obtain ⟨_, _, hc⟩ := h
  exact ⟨hc, ht, hc⟩

/-- The animation step preserves the tween invariant: the interpolated pan
stays within `[0, 1 - interpolated zoom]` because interpolation is linear and
the eased progress lies in `[0, 1]`. -/
theorem tick_invariant (d : Data) (dt : ℚ) (h : tween_invariant d) :
    tween_invariant (video_tick_frame d dt) := by
  obtain ⟨⟨hf1, hf2, hf3, hf4⟩, ⟨ht1, ht2, ht3, ht4⟩, _⟩ := h
  have he0 : 0 ≤ smooth_step ((video_tick_frame d dt).progress) :=
    smooth_step_nonneg _
  have he1 : smooth_step ((video_tick_frame d dt).progress) ≤ 1 :=
    smooth_step_le_one _
  refine ⟨⟨hf1, hf2, hf3, hf4⟩, ⟨ht1, ht2, ht3, ht4⟩, ?_⟩
  unfold pan_in_bounds
  rw [tick_current, tick_current_zoom]
  dsimp only
  refine ⟨?_, ?_, ?_, ?_⟩
  · nlinarith [mul_nonneg hf1 (by linarith : (0 : ℚ) ≤
        1 - smooth_step ((video_tick_frame d dt).progress)),
      mul_nonneg ht1 he0]
  · nlinarith [mul_nonneg
      (by linarith : (0 : ℚ) ≤ 1 - d.from_zoom - d.from_pan.1)
      (by linarith : (0 : ℚ) ≤ 1 - smooth_step ((video_tick_frame d dt).progress)),
      mul_nonneg
        (by linarith : (0 : ℚ) ≤ 1 - d.target_zoom - d.target.1) he0]
  · nlinarith [mul_nonneg hf3 (by linarith : (0 : ℚ) ≤
        1 - smooth_step ((video_tick_frame d dt).progress)),
      mul_nonneg ht3 he0]
  · nlinarith [mul_nonneg
      (by linarith : (0 : ℚ) ≤ 1 - d.from_zoom - d.from_pan.2)
      (by linarith : (0 : ℚ) ≤ 1 - smooth_step ((video_tick_frame d dt).progress)),
      mul_nonneg
        (by linarith : (0 : ℚ) ≤ 1 - d.target_zoom - d.target.2) he0]

/-- C6 (amended): the framing invariant — every pan vector of the tween within
`[0, 1 - zoom]` for its zoom — is preserved by snapshot retargeting and by the
per-frame animation step.  (It is NOT preserved by configuration updates; see
the counterexample.) -/
theorem tween_invariant_snapshot_and_tick (d : Data) (s : WindowSnapshot)
    (dt : ℚ) (h : tween_invariant d) :
    tween_invariant (process_snapshot d s) ∧
    tween_invariant (video_tick_frame d dt) := by
  refine ⟨?_, tick_invariant d dt h⟩
  unfold process_snapshot
  split
  · split
    · exact commit_invariant d 1 (0, 0) h (by norm_num [pan_in_bounds])
    · exact h
  · split
    · exact commit_invariant d (window_zoom d s) _ h
        ⟨candidate_x_nonneg d s, candidate_x_le d s,
          candidate_y_nonneg d s, candidate_y_le d s⟩
    · exact h

/-- Witness for C6 (amended) at a concrete state satisfying the invariant. -/
theorem tween_invariant_snapshot_and_tick_witness :
    tween_invariant (process_snapshot initial_data ⟨150, 150, 60, 60⟩) ∧
    tween_invariant (video_tick_frame initial_data (1 / 10)) :=
  tween_invariant_snapshot_and_tick initial_data ⟨150, 150, 60, 60⟩ (1 / 10)
    (by norm_num [tween_invariant, pan_in_bounds, initial_data])

/-- Counterexample to C6: along the reachable run `update (zoom := 5)` →
on-region snapshot `s_mid` → frame of `0.3 s` → `update (zoom := 1)` → frame
of `0.1 s`, the interpolated pan satisfies the claimed bound before the second
update but violates `current_pan ≤ 1 - current_zoom` after it: the update
raised `target_zoom` to `1` while leaving `target_pan = (1/2, 1/2)`. -/
theorem current_pan_leaves_screen_counterexample :
    pan_in_bounds
      (video_tick_frame (process_snapshot (update initial_data st_zoom5) s_mid)
        (3 / 10)).current
      (video_tick_frame (process_snapshot (update initial_data st_zoom5) s_mid)
        (3 / 10)).current_zoom ∧
    ¬ pan_in_bounds
      (video_tick_frame (update (video_tick_frame
        (process_snapshot (update initial_data st_zoom5) s_mid) (3 / 10))
        st_zoom1) (1 / 10)).current
      (video_tick_frame (update (video_tick_frame
        (process_snapshot (update initial_data st_zoom5) s_mid) (3 / 10))
        st_zoom1) (1 / 10)).current_zoom := by
  have h0 : update initial_data st_zoom5 = d6_0 := by
    norm_num [update, initial_data, st_zoom5, d6_0, get_property_value_f64,
      get_property_value_i32, u32_cast, DEFAULT_ZOOM, DEFAULT_SCREEN_X,
      DEFAULT_SCREEN_Y, DEFAULT_SCREEN_WIDTH, DEFAULT_SCREEN_HEIGHT,
      DEFAULT_ANIMATION_TIME, Option.getD]
  have hoff : off_region d6_0 s_mid = false := by
    norm_num [off_region, d6_0, s_mid]
  have hwz : window_zoom d6_0 s_mid = 1 / 2 := by
    norm_num [window_zoom, d6_0, s_mid]
  have hcx : candidate_x d6_0 s_mid = 1 / 2 := by
    norm_num [candidate_x, window_zoom, d6_0, s_mid]
  have hcy : candidate_y d6_0 s_mid = 1 / 2 := by
    norm_num [candidate_y, window_zoom, d6_0, s_mid]
  have h1 : process_snapshot d6_0 s_mid = d6_1 := by
    rw [process_snapshot_on_region d6_0 s_mid hoff, hcy, hcx, hwz,
      if_pos (by norm_num [abs, d6_0])]
    norm_num [commit, d6_0, d6_1]
  have h2 : video_tick_frame d6_1 (3 / 10) = d6_2 := by
    norm_num [video_tick_frame, smooth_step, d6_1, d6_2]
  have h3 : update d6_2 st_zoom1 = d6_3 := by
    norm_num [update, st_zoom1, d6_2, d6_3, get_property_value_f64,
      get_property_value_i32, u32_cast, DEFAULT_ZOOM, DEFAULT_SCREEN_X,
      DEFAULT_SCREEN_Y, DEFAULT_SCREEN_WIDTH, DEFAULT_SCREEN_HEIGHT,
      DEFAULT_ANIMATION_TIME, Option.getD]
  have h4 : video_tick_frame d6_3 (1 / 10) = d6_4 := by
    norm_num [video_tick_frame, smooth_step, d6_3, d6_4]
  rw [h0, h1, h2, h3, h4]
  constructor
  · norm_num [pan_in_bounds, d6_2]
  · norm_num [pan_in_bounds, d6_4]

/-- C7: a settings update leaves `progress`, `from_pan` and `target` alone
while setting `from_zoom = current_zoom` and
`target_zoom = internal_zoom = 1 / zoom`; when the previous tween had
converged (`progress = 1`), the very next frame already shows
`current_zoom = target_zoom` — the new zoom is applied with no easing. -/
theorem update_zoom_no_progress_reset (d : Data) (st : SettingsStore) (dt : ℚ)
    (hp : d.progress = 1) (hdt : 0 ≤ dt)
    (hT : 0 < (update d st).animation_time) :
    (update d st).progress = d.progress ∧
    (update d st).from_pan = d.from_pan ∧
    (update d st).target = d.target ∧
    (update d st).from_zoom = d.current_zoom ∧
    (update d st).target_zoom = 1 / get_property_value_f64 st.zoom DEFAULT_ZOOM ∧
    (update d st).internal_zoom = 1 / get_property_value_f64 st.zoom DEFAULT_ZOOM ∧
    (video_tick_frame (update d st) dt).current_zoom = (update d st).target_zoom := by
  refine ⟨rfl, rfl, rfl, rfl, rfl, rfl, ?_⟩
  have hup : (update d st).progress = 1 := hp
  have hp1 : (video_tick_frame (update d st) dt).progress = 1 := by
    rw [tick_progress, hup]
    have hq : 0 ≤ dt / (update d st).animation_time := div_nonneg hdt hT.le
    exact min_eq_right (by linarith)
  exact ((tick_converged _ _ hp1).2).trans (tick_target_zoom _ _)

/-- Witness for C7: updating the converged initial state with zoom `5` makes
the next frame jump straight to `current_zoom = target_zoom = 1/5`. -/
theorem update_zoom_no_progress_reset_witness :
    (update initial_data st_zoom5).progress = initial_data.progress ∧
    (update initial_data st_zoom5).from_pan = initial_data.from_pan ∧
    (update initial_data st_zoom5).target = initial_data.target ∧
    (update initial_data st_zoom5).from_zoom = initial_data.current_zoom ∧
    (update initial_data st_zoom5).target_zoom =
      1 / get_property_value_f64 st_zoom5.zoom DEFAULT_ZOOM ∧
    (update initial_data st_zoom5).internal_zoom =
      1 / get_property_value_f64 st_zoom5.zoom DEFAULT_ZOOM ∧
    (video_tick_frame (update initial_data st_zoom5) (1 / 10)).current_zoom =
      (update initial_data st_zoom5).target_zoom :=
  update_zoom_no_progress_reset initial_data st_zoom5 (1 / 10)
    (by norm_num [initial_data]) (by norm_num)
    (by norm_num [update, st_zoom5, get_property_value_f64,
      DEFAULT_ANIMATION_TIME, Option.getD])

/-- Counterexample to C9: with the effect loaded and all shader parameters
found but the watcher connection failing, `create` still returns a fully
constructed filter; the initialization failure only kills the spawned
watcher thread. -/
theorem create_survives_watcher_failure_counterexample :
    create true true false = some (initial_data, WatcherOutcome.dead_on_init) ∧
    (create true true false).isSome = true := by
  exact ⟨rfl, rfl⟩

/-- C9 (amended): watcher initialization failure is NOT surfaced as a
construction failure — `create` returns the constructed filter and the
failure merely terminates the spawned watcher thread — while effect-load or
missing-parameter failures do abort construction. -/
theorem create_watcher_failure_behavior (init_ok : Bool) :
    create true true init_ok = some (initial_data, watcher_thread init_ok) ∧
    (init_ok = false → watcher_thread init_ok = WatcherOutcome.dead_on_init) ∧
    create false true init_ok = none ∧ create true false init_ok = none := by
  refine ⟨rfl, ?_, rfl, rfl⟩
  rintro rfl
  rfl

/-- Witness for C9 (amended) at a failing watcher initialization. -/
theorem create_watcher_failure_behavior_witness :
    create true true false = some (initial_data, watcher_thread false) ∧
    (false = false → watcher_thread false = WatcherOutcome.dead_on_init) ∧
    create false true false = none ∧ create true false false = none :=
  create_watcher_failure_behavior false

/-- Counterexample to C10: the stored zoom `7` lies above the descriptor
bound `5`, yet the read returns `7` unclamped — unlike the spec-modelled
clamped read, which returns `5` — and the unclamped value flows into
`internal_zoom = 1/7` on update. -/
theorem config_read_clamping_counterexample :
    get_property_value_f64 (some 7) DEFAULT_ZOOM = 7 ∧
    property_zoom.max = 5 ∧ ¬((7 : ℚ) ≤ property_zoom.max) ∧
    get_property_value_f64_clamped property_zoom (some 7) DEFAULT_ZOOM = 5 ∧
    get_property_value_f64 (some 7) DEFAULT_ZOOM ≠
      get_property_value_f64_clamped property_zoom (some 7) DEFAULT_ZOOM ∧
    (update initial_data st_zoom7).internal_zoom = 1 / 7 := by
  norm_num [get_property_value_f64, get_property_value_f64_clamped,
    property_zoom, DEFAULT_ZOOM, update, initial_data, st_zoom7, Option.getD]

/-- C10 (amended): configuration reads return the stored value unclamped (the
default only when no value is stored); in particular an out-of-range zoom
setting reaches `internal_zoom` and `target_zoom` untouched by the declared
descriptor bounds. -/
theorem config_read_passthrough (d : Data) (st : SettingsStore) (z : ℚ)
    (hz : st.zoom = some z) :
    get_property_value_f64 st.zoom DEFAULT_ZOOM = z ∧
    (update d st).internal_zoom = 1 / z ∧
    (update d st).target_zoom = 1 / z ∧
    get_property_value_f64 none DEFAULT_ZOOM = DEFAULT_ZOOM := by
  have hv : get_property_value_f64 st.zoom DEFAULT_ZOOM = z := by
    simp only [get_property_value_f64, hz, Option.getD_some]
  refine ⟨hv, ?_, ?_, rfl⟩
  · show 1 / get_property_value_f64 st.zoom DEFAULT_ZOOM = 1 / z
    rw [hv]
  · show 1 / get_property_value_f64 st.zoom DEFAULT_ZOOM = 1 / z
    rw [hv]

/-- Witness for C10 (amended) at the out-of-range stored zoom `7`. -/
theorem config_read_passthrough_witness :
    get_property_value_f64 st_zoom7.zoom DEFAULT_ZOOM = 7 ∧
    (update initial_data st_zoom7).internal_zoom = 1 / 7 ∧
    (update initial_data st_zoom7).target_zoom = 1 / 7 ∧
    get_property_value_f64 none DEFAULT_ZOOM = DEFAULT_ZOOM :=
  config_read_passthrough initial_data st_zoom7 7 (by norm_num [st_zoom7])

end ScrollFocus
